import Mathlib

/-!
Verification development for the pcap-analysis packet-extraction pipeline.

Shallow embedding of:
  - src/model.py   : the pydantic `Packet` model with its two validators
                     `flags_rb_must_be_zero` and `set_dsfield_int16`;
  - src/extract_packets.py : `read_packet` (per-packet normalisation and
                     append to the jsonl log) and `read_pcap` (driving the
                     packet stream; modelled here in its sequential,
                     `n_jobs = 1` mode, where joblib executes the delayed
                     calls one by one in stream order and an exception
                     raised by a call propagates and stops the run).

Modelling conventions:
  - pyshark attribute values that pydantic coerces to `int` by ordinary
    decimal coercion are modelled as already-coerced `Int` values; the
    `dsfield` attribute is kept raw (`RawVal`), because its pre-validator
    `set_dsfield_int16` calls `int(v, 16)` on the raw value and its
    behaviour differs between string and non-string input.
  - `float` values (`sniff_timestamp`) are carried as rationals; the code
    performs no arithmetic on them, they only pass through to the output.
  - pydantic validation is modelled per field in declaration order,
    stopping at the first failing validator; only the `dsfield` and
    `flags_rb` validators can fail, and `dsfield` is declared first.
  - an exception raised while building `Packet(...)` is modelled as the
    `Except.error` branch; the jsonl log is modelled as a list of JSON
    values, one per appended line (the jsonlines library writes exactly
    one self-delimited line per `write` call).
-/

namespace Pcap

/-- Raw value of a pyshark attribute as handed to the model: either still a
string, or a value that is already a parsed integer. -/
inductive RawVal where
  | str (s : String)
  | int (n : Int)
deriving DecidableEq

/-- Hexadecimal digit test, as accepted by Python `int(s, 16)`. -/
def isHexDig (c : Char) : Bool :=
  c.isDigit || ('a' ≤ c && c ≤ 'f') || ('A' ≤ c && c ≤ 'F')

/-- Value of a hexadecimal digit. -/
def hexVal (c : Char) : Nat :=
  if c.isDigit then c.toNat - 48
  else if 'a' ≤ c && c ≤ 'f' then c.toNat - 87
  else c.toNat - 55

/-- Digit loop of Python `int(s, 16)`: after the first digit, a single
underscore may separate two digits; anything else is a parse failure. -/
def hexDigitsLoop : Nat → List Char → Option Nat
  | acc, [] => some acc
  | acc, '_' :: c :: rest =>
      if isHexDig c then hexDigitsLoop (acc * 16 + hexVal c) rest else none
  | acc, c :: rest =>
      if isHexDig c then hexDigitsLoop (acc * 16 + hexVal c) rest else none

/-- Digit part of Python `int(s, 16)`: must start with a hexadecimal digit
(no leading underscore, nonempty). -/
def parseHexDigits : List Char → Option Nat
  | [] => none
  | c :: rest => if isHexDig c then hexDigitsLoop (hexVal c) rest else none

/-- Strip an optional `0x` / `0X` base marker, allowing the single
underscore Python permits right after it. -/
def strip0x : List Char → List Char
  | '0' :: 'x' :: rest =>
      match rest with
      | '_' :: r => r
      | r => r
  | '0' :: 'X' :: rest =>
      match rest with
      | '_' :: r => r
      | r => r
  | cs => cs

/-- Python `int(s, 16)`: optional surrounding whitespace, optional sign,
optional `0x` marker, then hexadecimal digits; `none` models the
`ValueError` raised on malformed input. -/
def pyIntBase16 (s : String) : Option Int :=
  let cs := ((s.data.dropWhile Char.isWhitespace).reverse.dropWhile
      Char.isWhitespace).reverse
  match cs with
  | '+' :: rest => (parseHexDigits (strip0x rest)).map (fun n => (n : Int))
  | '-' :: rest => (parseHexDigits (strip0x rest)).map (fun n => -(n : Int))
  | rest => (parseHexDigits (strip0x rest)).map (fun n => (n : Int))

/-- An error raised during validation of one field: field name and message. -/
abbrev FieldError := String × String

/-- The `set_dsfield_int16` pre-validator of src/model.py: `int(v, 16)`.
On a string it parses base 16 (`ValueError` on failure); on a non-string
value Python `int` with an explicit base raises `TypeError`. -/
def set_dsfield_int16 : RawVal → Except String Int
  | .str s =>
      match pyIntBase16 s with
      | some n => .ok n
      | none => .error "ValueError: invalid literal for int() with base 16"
  | .int _ => .error "TypeError: int() cannot convert non-string with explicit base"

/-- The `flags_rb_must_be_zero` validator of src/model.py: a nonzero value
raises (the source constructs the exception with this message); zero is
returned unchanged. -/
def flags_rb_must_be_zero (v : Int) : Except String Int :=
  if v ≠ 0 then .error "flags_rb must be zero." else .ok v

/-- The validated record, mirroring the sixteen fields of the pydantic
`Packet` model of src/model.py, in declaration order. -/
structure Packet where
  dsfield_dscp : Int
  hdr_len : Int
  dsfield : Int
  dsfield_ecn : Int
  len : Int
  proto : Int
  flags_df : Int
  flags_mf : Int
  flags_rb : Int
  frag_offset : Int
  ttl : Int
  src : String
  dst : String
  srcport : Int
  dstport : Int
  sniff_timestamp : ℚ
deriving DecidableEq

/-- The raw keyword arguments handed to `Packet(...)` in `read_packet`. -/
structure RawPacket where
  dsfield_dscp : Int
  hdr_len : Int
  dsfield : RawVal
  dsfield_ecn : Int
  len : Int
  proto : Int
  flags_df : Int
  flags_mf : Int
  flags_rb : Int
  frag_offset : Int
  ttl : Int
  src : String
  dst : String
  srcport : Int
  dstport : Int
  sniff_timestamp : ℚ
deriving DecidableEq

/-- Constructing `Packet(...)`: pydantic runs the field validators; the
`dsfield` pre-validator and the `flags_rb` validator are the only ones
that can fail, and `dsfield` is declared first. An error means the
constructor raised and no record was produced. -/
def mkPacket (r : RawPacket) : Except FieldError Packet :=
  match set_dsfield_int16 r.dsfield with
  | .error m => .error ("dsfield", m)
  | .ok ds =>
      match flags_rb_must_be_zero r.flags_rb with
      | .error m => .error ("flags_rb", m)
      | .ok rb =>
          .ok { dsfield_dscp := r.dsfield_dscp, hdr_len := r.hdr_len,
                dsfield := ds, dsfield_ecn := r.dsfield_ecn, len := r.len,
                proto := r.proto, flags_df := r.flags_df,
                flags_mf := r.flags_mf, flags_rb := rb,
                frag_offset := r.frag_offset, ttl := r.ttl, src := r.src,
                dst := r.dst, srcport := r.srcport, dstport := r.dstport,
                sniff_timestamp := r.sniff_timestamp }

/-- JSON values, as far as the output log needs them. -/
inductive Json where
  | jint (n : Int)
  | jnum (q : ℚ)
  | jstr (s : String)
  | jobj (fields : List (String × Json))

/-- Serialisation `pckt.model_dump_json()`: one JSON object whose keys are
the model fields in declaration order; `dsfield` is emitted from the
already-parsed integer field. -/
def model_dump_json (p : Packet) : Json :=
  .jobj [("dsfield_dscp", .jint p.dsfield_dscp),
         ("hdr_len", .jint p.hdr_len),
         ("dsfield", .jint p.dsfield),
         ("dsfield_ecn", .jint p.dsfield_ecn),
         ("len", .jint p.len),
         ("proto", .jint p.proto),
         ("flags_df", .jint p.flags_df),
         ("flags_mf", .jint p.flags_mf),
         ("flags_rb", .jint p.flags_rb),
         ("frag_offset", .jint p.frag_offset),
         ("ttl", .jint p.ttl),
         ("src", .jstr p.src),
         ("dst", .jstr p.dst),
         ("srcport", .jint p.srcport),
         ("dstport", .jint p.dstport),
         ("sniff_timestamp", .jnum p.sniff_timestamp)]

/-- Key lookup in a JSON object. -/
def jlookup (j : Json) (k : String) : Option Json :=
  match j with
  | .jobj fs => fs.lookup k
  | _ => none

/-- Key list of a JSON object. -/
def jkeys (j : Json) : Option (List String) :=
  match j with
  | .jobj fs => some (fs.map Prod.fst)
  | _ => none

/-- IP layer of a decoded pyshark packet: exactly the attributes
`read_packet` queries; `dsfield` is the raw string pyshark exposes. -/
structure IPLayer where
  dsfield_dscp : Int
  hdr_len : Int
  dsfield : String
  dsfield_ecn : Int
  len : Int
  proto : Int
  flags_df : Int
  flags_mf : Int
  flags_rb : Int
  frag_offset : Int
  ttl : Int
  src : String
  dst : String
deriving DecidableEq

/-- A transport layer (UDP or TCP) with its two port attributes. -/
structure TransportLayer where
  srcport : Int
  dstport : Int
deriving DecidableEq

/-- A decoded pyshark packet: an optional IP layer, optional UDP and TCP
layers, and the capture timestamp. -/
structure PysharkPacket where
  ip : Option IPLayer
  udp : Option TransportLayer
  tcp : Option TransportLayer
  sniff_timestamp : ℚ

/-- The keyword arguments `read_packet` builds for `Packet(...)`,
including its transport-dependent port selection (lines 63 and 64 of
src/extract_packets.py). -/
def rawOf (pk : PysharkPacket) (ipl : IPLayer) : RawPacket :=
  { dsfield_dscp := ipl.dsfield_dscp, hdr_len := ipl.hdr_len,
    dsfield := .str ipl.dsfield, dsfield_ecn := ipl.dsfield_ecn,
    len := ipl.len, proto := ipl.proto, flags_df := ipl.flags_df,
    flags_mf := ipl.flags_mf, flags_rb := ipl.flags_rb,
    frag_offset := ipl.frag_offset, ttl := ipl.ttl, src := ipl.src,
    dst := ipl.dst,
    srcport :=
      match pk.udp with
      | some u => u.srcport
      | none =>
          match pk.tcp with
          | some t => t.srcport
          | none => -1,
    dstport :=
      match pk.udp with
      | some u => u.dstport
      | none =>
          match pk.tcp with
          | some t => t.dstport
          | none => -1,
    sniff_timestamp := pk.sniff_timestamp }

/-- The function `read_packet` of src/extract_packets.py applied to one
packet and the current log: a packet without an IP layer leaves the log
unchanged; otherwise `Packet(...)` is built and its JSON appended, and a
validation exception escapes as the error branch. -/
def read_packet (pk : PysharkPacket) (log : List Json) :
    Except FieldError (List Json) :=
  match pk.ip with
  | none => .ok log
  | some ipl =>
      (mkPacket (rawOf pk ipl)).map (fun p => log ++ [model_dump_json p])

/-- Driving loop of `read_pcap` in sequential (`n_jobs = 1`) mode: packets
are processed in decode order and the first exception stops the run,
leaving the log as already written. -/
def read_pcap_go : List PysharkPacket → List Json →
    List Json × Option FieldError
  | [], log => (log, none)
  | pk :: rest, log =>
      match read_packet pk log with
      | .error e => (log, some e)
      | .ok log2 => read_pcap_go rest log2

/-- The function `read_pcap` of src/extract_packets.py in sequential mode,
started on an empty log: returns the final log and the exception that
terminated the run, if any. -/
def read_pcap (pkts : List PysharkPacket) : List Json × Option FieldError :=
  read_pcap_go pkts []

/-- Boolean success of an `Except`. -/
def isOkE {ε α : Type} : Except ε α → Bool
  | .ok _ => true
  | .error _ => false

/-- Whether processing a packet raises no exception (packets without an IP
layer are fine: they are skipped). -/
def packetOk (pk : PysharkPacket) : Bool :=
  match pk.ip with
  | none => true
  | some ipl => isOkE (mkPacket (rawOf pk ipl))

/-- The log entry a packet contributes, if any. -/
def packetEntry (pk : PysharkPacket) : Option Json :=
  match pk.ip with
  | none => none
  | some ipl =>
      match mkPacket (rawOf pk ipl) with
      | .ok p => some (model_dump_json p)
      | .error _ => none

/-- The sixteen field names of the data model, in declaration order. -/
def fieldNames : List String :=
  ["dsfield_dscp", "hdr_len", "dsfield", "dsfield_ecn", "len", "proto",
   "flags_df", "flags_mf", "flags_rb", "frag_offset", "ttl", "src", "dst",
   "srcport", "dstport", "sniff_timestamp"]

/-- Field projections of a successfully constructed record: each direct
field is the raw value unchanged, `dsfield` is the parsed value, and the
`flags_rb` validator forces the raw value to be 0. -/
theorem mkPacket_ok_fields {r : RawPacket} {p : Packet}
    (h : mkPacket r = .ok p) :
    set_dsfield_int16 r.dsfield = .ok p.dsfield ∧ r.flags_rb = 0 ∧
    p.flags_rb = r.flags_rb ∧ p.srcport = r.srcport ∧
    p.dstport = r.dstport ∧ p.src = r.src ∧ p.dst = r.dst ∧
    p.sniff_timestamp = r.sniff_timestamp := by
  unfold mkPacket at h
  cases hd : set_dsfield_int16 r.dsfield with
  | error m => rw [hd] at h; exact absurd h (by simp)
  | ok ds =>
      rw [hd] at h
      cases hrb0 : flags_rb_must_be_zero r.flags_rb with
      | error m => rw [hrb0] at h; exact absurd h (by simp)
      | ok rb =>
          rw [hrb0] at h
          have hz : r.flags_rb = 0 ∧ rb = r.flags_rb := by
            unfold flags_rb_must_be_zero at hrb0
            by_cases hv : r.flags_rb = 0
            · rw [if_neg (fun hne => hne hv)] at hrb0
              injection hrb0 with h2
              exact ⟨hv, h2.symm⟩
            · rw [if_pos hv] at hrb0
              exact absurd hrb0 (by simp)
          obtain ⟨hz0, hrbv⟩ := hz
          cases h
          exact ⟨rfl, hz0, hrbv, rfl, rfl, rfl, rfl, rfl⟩

/-- A packet without an IP layer leaves the log unchanged and raises
nothing. -/
theorem read_packet_noip {pk : PysharkPacket} (h : pk.ip = none)
    (log : List Json) : read_packet pk log = .ok log := by
  simp [read_packet, h]

/-- A packet whose record construction succeeds appends exactly the JSON
of that record. -/
theorem read_packet_appends {pk : PysharkPacket} {ipl : IPLayer}
    {p : Packet} (hip : pk.ip = some ipl)
    (hm : mkPacket (rawOf pk ipl) = .ok p) (log : List Json) :
    read_packet pk log = .ok (log ++ [model_dump_json p]) := by
  simp [read_packet, hip, hm, Except.map]

/-- A packet that raises no exception appends its optional entry. -/
theorem read_packet_of_packetOk {pk : PysharkPacket}
    (h : packetOk pk = true) (log : List Json) :
    read_packet pk log = .ok (log ++ (packetEntry pk).toList) := by
  cases hip : pk.ip with
  | none => simp [read_packet, packetEntry, hip]
  | some ipl =>
      have h' : isOkE (mkPacket (rawOf pk ipl)) = true := by
        simpa [packetOk, hip] using h
      cases hm : mkPacket (rawOf pk ipl) with
      | error e => rw [hm] at h'; simp [isOkE] at h'
      | ok p => simp [read_packet, packetEntry, hip, hm, Except.map]

/-- One step of the sequential loop over a packet that raises nothing. -/
theorem read_pcap_go_cons_ok {pk : PysharkPacket} (h : packetOk pk = true)
    (rest : List PysharkPacket) (log : List Json) :
    read_pcap_go (pk :: rest) log =
      read_pcap_go rest (log ++ (packetEntry pk).toList) := by
  rw [read_pcap_go, read_packet_of_packetOk h log]

/-- A packet that raises produces an error independent of the log. -/
theorem read_packet_of_not_packetOk {pk : PysharkPacket}
    (h : packetOk pk = false) :
    ∃ e, ∀ log, read_packet pk log = .error e := by
  cases hip : pk.ip with
  | none => simp [packetOk, hip] at h
  | some ipl =>
      have h' : isOkE (mkPacket (rawOf pk ipl)) = false := by
        simpa [packetOk, hip] using h
      cases hm : mkPacket (rawOf pk ipl) with
      | error e =>
          exact ⟨e, fun log => by simp [read_packet, hip, hm, Except.map]⟩
      | ok p => rw [hm] at h'; simp [isOkE] at h'

/-- Log produced by the sequential loop: the starting log followed by the
entries of the longest error-free prefix, in decode order. -/
theorem read_pcap_go_fst (pkts : List PysharkPacket) : ∀ log : List Json,
    (read_pcap_go pkts log).1 =
      log ++ (pkts.takeWhile packetOk).filterMap packetEntry := by
  induction pkts with
  | nil => intro log; simp [read_pcap_go]
  | cons pk rest ih =>
      intro log
      by_cases hok : packetOk pk = true
      · have h1 := read_packet_of_packetOk hok log
        rw [read_pcap_go, h1, ih, List.takeWhile_cons, if_pos hok]
        cases hpe : packetEntry pk with
        | none => simp [hpe]
        | some e => simp [hpe]
      · have hok' : packetOk pk = false := by
          cases hpk : packetOk pk
          · rfl
          · exact absurd hpk hok
        obtain ⟨e, he⟩ := read_packet_of_not_packetOk hok'
        rw [read_pcap_go, he log, List.takeWhile_cons, if_neg (by simp [hok'])]
        simp

/-- Every entry of the final log is the serialisation of a successfully
validated record. -/
theorem mem_read_pcap {pkts : List PysharkPacket} {e : Json}
    (h : e ∈ (read_pcap pkts).1) :
    ∃ (r : RawPacket) (p : Packet), mkPacket r = .ok p ∧
      e = model_dump_json p := by
  rw [read_pcap, read_pcap_go_fst, List.nil_append] at h
  obtain ⟨pk, _, hpe⟩ := List.mem_filterMap.mp h
  cases hip : pk.ip with
  | none => simp [packetEntry, hip] at hpe
  | some ipl =>
      cases hm : mkPacket (rawOf pk ipl) with
      | error m => simp [packetEntry, hip, hm] at hpe
      | ok p =>
          have he : model_dump_json p = e := by
            simpa [packetEntry, hip, hm] using hpe
          exact ⟨rawOf pk ipl, p, hm, he.symm⟩

/-- Looking up `flags_rb` in a serialised record returns its integer
field. -/
theorem jlookup_flags_rb (p : Packet) :
    jlookup (model_dump_json p) "flags_rb" = some (.jint p.flags_rb) := rfl

/-- Looking up `dsfield` in a serialised record returns its integer
field. -/
theorem jlookup_dsfield (p : Packet) :
    jlookup (model_dump_json p) "dsfield" = some (.jint p.dsfield) := rfl

/-- The keys of a serialised record are the sixteen field names. -/
theorem jkeys_model_dump (p : Packet) :
    jkeys (model_dump_json p) = some fieldNames := rfl

/-- Sample IP layer with valid fields. -/
def ipGood : IPLayer :=
  { dsfield_dscp := 0, hdr_len := 5, dsfield := "1a", dsfield_ecn := 0,
    len := 60, proto := 6, flags_df := 1, flags_mf := 0, flags_rb := 0,
    frag_offset := 0, ttl := 64, src := "10.0.0.1", dst := "10.0.0.2" }

/-- Sample IP layer violating the reserved-bit invariant. -/
def ipBad : IPLayer := { ipGood with flags_rb := 1 }

/-- Sample packet with an IP layer and a TCP layer. -/
def goodPkt : PysharkPacket :=
  { ip := some ipGood, udp := none,
    tcp := some { srcport := 443, dstport := 51000 },
    sniff_timestamp := 1 }

/-- Sample packet whose record construction raises. -/
def badPkt : PysharkPacket :=
  { ip := some ipBad, udp := none, tcp := none, sniff_timestamp := 2 }

/-- Sample packet without an IP layer. -/
def noIpPkt : PysharkPacket :=
  { ip := none, udp := none, tcp := none, sniff_timestamp := 3 }

/-- Sample UDP layer. -/
def udpB : TransportLayer := { srcport := 53, dstport := 5353 }

/-- Sample packet carrying both a UDP and a TCP layer. -/
def pkBoth : PysharkPacket :=
  { ip := some ipGood, udp := some udpB,
    tcp := some { srcport := 80, dstport := 8080 },
    sniff_timestamp := 0 }

/-- The record produced for `goodPkt`. -/
def gRec : Packet :=
  { dsfield_dscp := 0, hdr_len := 5, dsfield := 26, dsfield_ecn := 0,
    len := 60, proto := 6, flags_df := 1, flags_mf := 0, flags_rb := 0,
    frag_offset := 0, ttl := 64, src := "10.0.0.1", dst := "10.0.0.2",
    srcport := 443, dstport := 51000, sniff_timestamp := 1 }

/-- The record produced for `pkBoth`: ports come from the UDP layer. -/
def bRec : Packet :=
  { gRec with srcport := 53, dstport := 5353, sniff_timestamp := 0 }

/-- Raw arguments with valid fields and dsfield string "1a". -/
def raw1a : RawPacket := rawOf goodPkt ipGood

/-- Same raw arguments with dsfield string "0xFF". -/
def rawFF : RawPacket := { raw1a with dsfield := .str "0xFF" }

/-- Same raw arguments with malformed dsfield string "zz". -/
def rawZZ : RawPacket := { raw1a with dsfield := .str "zz" }

/-- C1: every entry written to the log has `flags_rb` equal to 0; raw
arguments with nonzero `flags_rb` are rejected at construction, so no
record is produced for them; and a produced record carries the raw
`flags_rb` value unchanged, which the validator forces to be 0 — the
value is never silently coerced. -/
theorem C1_flags_rb_zero_invariant :
    (∀ (pkts : List PysharkPacket) (e : Json), e ∈ (read_pcap pkts).1 →
      jlookup e "flags_rb" = some (.jint 0)) ∧
    (∀ r : RawPacket, r.flags_rb ≠ 0 → isOkE (mkPacket r) = false) ∧
    (∀ (r : RawPacket) (p : Packet), mkPacket r = .ok p →
      p.flags_rb = r.flags_rb ∧ r.flags_rb = 0) := by
  refine ⟨?_, ?_, ?_⟩
  · intro pkts e he
    obtain ⟨r, p, hm, hE⟩ := mem_read_pcap he
    obtain ⟨_, hz, hrb, _⟩ := mkPacket_ok_fields hm
    subst hE
    rw [jlookup_flags_rb, hrb, hz]
  · intro r hne
    unfold mkPacket
    cases hd : set_dsfield_int16 r.dsfield with
    | error m => simp [isOkE]
    | ok ds =>
        have hrb : flags_rb_must_be_zero r.flags_rb =
            .error "flags_rb must be zero." := by
          unfold flags_rb_must_be_zero; rw [if_pos hne]
        rw [hrb]
        simp [isOkE]
  · intro r p hm
    obtain ⟨_, hz, hrb, _⟩ := mkPacket_ok_fields hm
    exact ⟨hrb, hz⟩

/-- Witness for C1 at concrete inputs. -/
theorem C1_flags_rb_zero_invariant_witness :
    jlookup (model_dump_json gRec) "flags_rb" = some (.jint 0) ∧
    isOkE (mkPacket (rawOf badPkt ipBad)) = false ∧
    (gRec.flags_rb = raw1a.flags_rb ∧ raw1a.flags_rb = 0) :=
  ⟨C1_flags_rb_zero_invariant.1 [goodPkt] (model_dump_json gRec)
      (by
        have hL : (read_pcap [goodPkt]).1 = [model_dump_json gRec] := rfl
        rw [hL]
        exact List.mem_singleton.mpr rfl),
   C1_flags_rb_zero_invariant.2.1 (rawOf badPkt ipBad) (by decide),
   C1_flags_rb_zero_invariant.2.2 raw1a gRec (by rfl)⟩

/-- C2: for a packet with an IP layer whose record is produced, the
appended entry is the serialisation of that record, and its ports are the
UDP ports when a UDP layer is present (even when a TCP layer is also
present), else the TCP ports when a TCP layer is present, else -1. -/
theorem C2_port_selection (pk : PysharkPacket) (ipl : IPLayer) (p : Packet)
    (hip : pk.ip = some ipl) (hm : mkPacket (rawOf pk ipl) = .ok p) :
    (∀ log, read_packet pk log = .ok (log ++ [model_dump_json p])) ∧
    (∀ u, pk.udp = some u → p.srcport = u.srcport ∧ p.dstport = u.dstport) ∧
    (pk.udp = none → ∀ t, pk.tcp = some t →
      p.srcport = t.srcport ∧ p.dstport = t.dstport) ∧
    (pk.udp = none → pk.tcp = none → p.srcport = -1 ∧ p.dstport = -1) := by
  obtain ⟨_, _, _, hsp, hdp, _⟩ := mkPacket_ok_fields hm
  refine ⟨fun log => read_packet_appends hip hm log, ?_, ?_, ?_⟩
  · intro u hu
    rw [hsp, hdp]
    constructor
    · simp [rawOf, hu]
    · simp [rawOf, hu]
  · intro hu t ht
    rw [hsp, hdp]
    constructor
    · simp [rawOf, hu, ht]
    · simp [rawOf, hu, ht]
  · intro hu ht
    rw [hsp, hdp]
    constructor
    · simp [rawOf, hu, ht]
    · simp [rawOf, hu, ht]

/-- Witness for C2 at a concrete packet carrying both UDP and TCP. -/
theorem C2_port_selection_witness :
    bRec.srcport = udpB.srcport ∧ bRec.dstport = udpB.dstport :=
  (C2_port_selection pkBoth ipGood bRec rfl rfl).2.1 udpB rfl

/-- C3: a record built from dsfield string "1a" has dsfield 26, from
"0xFF" has dsfield 255, and malformed input "zz" is rejected: the
constructor raises and no record is produced. -/
theorem C3_dsfield_hex_parsing (r : RawPacket) :
    (r.dsfield = RawVal.str "1a" → r.flags_rb = 0 →
      ∃ p, mkPacket r = .ok p ∧ p.dsfield = 26) ∧
    (r.dsfield = RawVal.str "0xFF" → r.flags_rb = 0 →
      ∃ p, mkPacket r = .ok p ∧ p.dsfield = 255) ∧
    (r.dsfield = RawVal.str "zz" → isOkE (mkPacket r) = false) := by
  refine ⟨?_, ?_, ?_⟩
  · intro hd hz
    have h16 : set_dsfield_int16 r.dsfield = .ok 26 := by rw [hd]; rfl
    have hrb : flags_rb_must_be_zero r.flags_rb = .ok r.flags_rb := by
      unfold flags_rb_must_be_zero; rw [if_neg (fun hne => hne hz)]
    exact ⟨_, by unfold mkPacket; rw [h16, hrb], rfl⟩
  · intro hd hz
    have h16 : set_dsfield_int16 r.dsfield = .ok 255 := by rw [hd]; rfl
    have hrb : flags_rb_must_be_zero r.flags_rb = .ok r.flags_rb := by
      unfold flags_rb_must_be_zero; rw [if_neg (fun hne => hne hz)]
    exact ⟨_, by unfold mkPacket; rw [h16, hrb], rfl⟩
  · intro hd
    have hE : set_dsfield_int16 r.dsfield =
        .error "ValueError: invalid literal for int() with base 16" := by
      rw [hd]; rfl
    unfold mkPacket
    rw [hE]
    simp [isOkE]

/-- Witness for C3 at concrete raw inputs. -/
theorem C3_dsfield_hex_parsing_witness :
    (∃ p, mkPacket raw1a = .ok p ∧ p.dsfield = 26) ∧
    (∃ p, mkPacket rawFF = .ok p ∧ p.dsfield = 255) ∧
    isOkE (mkPacket rawZZ) = false :=
  ⟨(C3_dsfield_hex_parsing raw1a).1 rfl rfl,
   (C3_dsfield_hex_parsing rawFF).2.1 rfl rfl,
   (C3_dsfield_hex_parsing rawZZ).2.2 rfl⟩

/-- C4: a packet without an IP layer is skipped entirely: `read_packet`
returns the log unchanged (no append, no exception), and the whole
sequential run on any stream containing such a packet equals the run on
the stream with that packet removed — same log and same outcome, so the
packet is neither recorded nor counted as an error. -/
theorem C4_no_ip_layer_skipped (pk : PysharkPacket) (h : pk.ip = none) :
    (∀ log, read_packet pk log = .ok log) ∧
    (∀ xs ys, read_pcap (xs ++ pk :: ys) = read_pcap (xs ++ ys)) := by
  have hgo : ∀ xs ys : List PysharkPacket, ∀ log,
      read_pcap_go (xs ++ pk :: ys) log = read_pcap_go (xs ++ ys) log := by
    intro xs ys
    induction xs with
    | nil =>
        intro log
        simp only [List.nil_append]
        rw [read_pcap_go, read_packet_noip h]
    | cons x xs ih =>
        intro log
        simp only [List.cons_append]
        rw [read_pcap_go, read_pcap_go]
        cases hx : read_packet x log with
        | error e => rfl
        | ok log2 => exact ih log2
  exact ⟨read_packet_noip h, fun xs ys => hgo xs ys []⟩

/-- Witness for C4 at a concrete stream. -/
theorem C4_no_ip_layer_skipped_witness :
    read_packet noIpPkt [] = .ok [] ∧
    read_pcap [noIpPkt, goodPkt] = read_pcap [goodPkt] :=
  ⟨(C4_no_ip_layer_skipped noIpPkt rfl).1 [],
   (C4_no_ip_layer_skipped noIpPkt rfl).2 [] [goodPkt]⟩

/-- C5 counterexample: in the stream of the rejected packet followed by a
valid packet, the rejection escapes the per-packet step and stops the
run: the final log is empty — in particular the valid second packet,
which alone would contribute a record, is never processed — and the run
ends with the propagated error. The claim that a rejection is local and
all other packets are still written is therefore false on the code. -/
theorem C5_rejection_halts_counterexample :
    (read_pcap [badPkt, goodPkt]).1 = [] ∧
    (read_pcap [badPkt, goodPkt]).2 =
      some ("flags_rb", "flags_rb must be zero.") ∧
    (read_pcap [goodPkt]).1 = [model_dump_json gRec] :=
  ⟨rfl, rfl, rfl⟩

/-- C5 amended: a rejection raised while validating one packet propagates
out of the per-packet step; in sequential mode the run halts there with
that error: the packets before it keep their records and the packets
after it are not processed at all. -/
theorem C5_rejection_propagates (xs : List PysharkPacket)
    (pk : PysharkPacket) (ys : List PysharkPacket) (ipl : IPLayer)
    (e : FieldError) (hxs : ∀ x ∈ xs, packetOk x = true)
    (hip : pk.ip = some ipl) (hm : mkPacket (rawOf pk ipl) = .error e) :
    read_pcap (xs ++ pk :: ys) = (xs.filterMap packetEntry, some e) := by
  have hpk : ∀ log, read_packet pk log = .error e := by
    intro log
    simp [read_packet, hip, hm, Except.map]
  have hgo : ∀ log, read_pcap_go (xs ++ pk :: ys) log =
      (log ++ xs.filterMap packetEntry, some e) := by
    induction xs with
    | nil =>
        intro log
        simp only [List.nil_append, List.filterMap_nil, List.append_nil]
        rw [read_pcap_go, hpk log]
    | cons x xs ih =>
        intro log
        have hx : packetOk x = true := hxs x (List.mem_cons_self x xs)
        have hxs' : ∀ y ∈ xs, packetOk y = true :=
          fun y hy => hxs y (List.mem_cons_of_mem x hy)
        simp only [List.cons_append]
        rw [read_pcap_go_cons_ok hx]
        rw [ih hxs' (log ++ (packetEntry x).toList)]
        cases hpe : packetEntry x with
        | none => simp [hpe]
        | some v => simp [hpe]
  have h0 := hgo []
  rw [List.nil_append] at h0
  exact h0

/-- Witness for C5 amended at a concrete stream. -/
theorem C5_rejection_propagates_witness :
    read_pcap [goodPkt, badPkt] =
      ([goodPkt].filterMap packetEntry,
        some ("flags_rb", "flags_rb must be zero.")) :=
  C5_rejection_propagates [goodPkt] badPkt [] ipBad
    ("flags_rb", "flags_rb must be zero.") (by decide) rfl rfl

/-- C6: in sequential mode the log is exactly the entries contributed by
the error-free prefix of the decoded stream, in decode order — append
order and decode order coincide; determinism over a fixed capture is
inherent, the run being a pure function of the packet list. -/
theorem C6_sequential_order (pkts : List PysharkPacket) :
    (read_pcap pkts).1 = (pkts.takeWhile packetOk).filterMap packetEntry := by
  rw [read_pcap, read_pcap_go_fst, List.nil_append]

/-- C8: every entry of the log is one self-contained JSON object whose
keys are exactly the sixteen field names of the data model, in
declaration order, and whose dsfield value is a plain integer, not the
original hexadecimal string. -/
theorem C8_entry_shape (pkts : List PysharkPacket) (e : Json)
    (h : e ∈ (read_pcap pkts).1) :
    (∃ fs, e = Json.jobj fs) ∧ jkeys e = some fieldNames ∧
    (∃ n : Int, jlookup e "dsfield" = some (.jint n)) := by
  obtain ⟨r, p, hm, hE⟩ := mem_read_pcap h
  subst hE
  exact ⟨⟨_, rfl⟩, jkeys_model_dump p, ⟨p.dsfield, jlookup_dsfield p⟩⟩

/-- Witness for C8 at a concrete log entry. -/
theorem C8_entry_shape_witness :
    (∃ fs, model_dump_json gRec = Json.jobj fs) ∧
    jkeys (model_dump_json gRec) = some fieldNames ∧
    (∃ n : Int, jlookup (model_dump_json gRec) "dsfield" = some (.jint n)) :=
  C8_entry_shape [goodPkt] (model_dump_json gRec)
    (by
      have hL : (read_pcap [goodPkt]).1 = [model_dump_json gRec] := rfl
      rw [hL]
      exact List.mem_singleton.mpr rfl)

/-- Raw arguments of the reserved-bit-violating packet. -/
def rawBadX : RawPacket := rawOf badPkt ipBad

/-- Same violation with different addresses and timestamp. -/
def rawBadY : RawPacket :=
  { rawBadX with src := "192.168.7.7", dst := "192.168.7.8", sniff_timestamp := 9 }

/-- C9 counterexample: two raw inputs with nonzero flags_rb but different
timestamps, source and destination addresses produce the very same
rejection value, whose payload is only the fixed message raised by the
validator — so the rejection carries neither the offending packet's
timestamp nor its addresses as diagnostics, contrary to the claim. -/
theorem C9_no_diagnostics_counterexample :
    mkPacket rawBadX = .error ("flags_rb", "flags_rb must be zero.") ∧
    mkPacket rawBadY = mkPacket rawBadX ∧
    rawBadX.src ≠ rawBadY.src ∧ rawBadX.dst ≠ rawBadY.dst ∧
    rawBadX.sniff_timestamp ≠ rawBadY.sniff_timestamp :=
  ⟨rfl, rfl, by decide, by decide, by decide⟩

/-- C9 amended: the flags_rb check happens while the flags_rb field
itself is validated — fields are validated in declaration order, so after
dsfield parsing — and a nonzero value rejects the packet with the fixed
validator message as its only payload: no timestamp or address
diagnostics are attached. -/
theorem C9_fixed_message_rejection (r : RawPacket)
    (hd : isOkE (set_dsfield_int16 r.dsfield) = true)
    (hz : r.flags_rb ≠ 0) :
    mkPacket r = .error ("flags_rb", "flags_rb must be zero.") := by
  unfold mkPacket
  cases hdd : set_dsfield_int16 r.dsfield with
  | error m => rw [hdd] at hd; simp [isOkE] at hd
  | ok ds =>
      have hrb : flags_rb_must_be_zero r.flags_rb =
          .error "flags_rb must be zero." := by
        unfold flags_rb_must_be_zero; rw [if_pos hz]
      rw [hrb]

/-- Witness for C9 amended at a concrete raw input. -/
theorem C9_fixed_message_rejection_witness :
    mkPacket rawBadX = .error ("flags_rb", "flags_rb must be zero.") :=
  C9_fixed_message_rejection rawBadX (by decide) (by decide)

/-- Raw arguments whose dsfield is already an integer, not a string. -/
def rawIntDs : RawPacket := { raw1a with dsfield := .int 26 }

/-- C10: a raw input whose dsfield value is not a string — for example an
already-parsed integer — is never silently accepted: int() with an
explicit base raises TypeError on a non-string, so construction errors
and no record is produced. -/
theorem C10_nonstring_dsfield_rejected (r : RawPacket) (n : Int)
    (hd : r.dsfield = RawVal.int n) :
    isOkE (mkPacket r) = false ∧
    mkPacket r = .error ("dsfield",
      "TypeError: int() cannot convert non-string with explicit base") := by
  have hE : set_dsfield_int16 r.dsfield = .error
      "TypeError: int() cannot convert non-string with explicit base" := by
    rw [hd]; rfl
  constructor
  · unfold mkPacket; rw [hE]; simp [isOkE]
  · unfold mkPacket; rw [hE]

/-- Witness for C10 at a concrete raw input. -/
theorem C10_nonstring_dsfield_rejected_witness :
    isOkE (mkPacket rawIntDs) = false ∧
    mkPacket rawIntDs = .error ("dsfield",
      "TypeError: int() cannot convert non-string with explicit base") :=
  C10_nonstring_dsfield_rejected rawIntDs 26 rfl

end Pcap
